import Mathlib

/-!
Shallow embedding of the energy-monitoring core of src/app.py.

Modelling conventions:
* Python datetimes are modelled by PyDateTime (Gregorian calendar fields at
  microsecond resolution, exactly the resolution of datetime).  An instant is
  mapped to an integer count of microseconds (toMicro) via a standard
  civil-calendar day count; chronological order of valid datetimes coincides
  with numeric order of toMicro, and timedelta.total_seconds() for t1 - t0 is
  the exact rational (toMicro t1 - toMicro t0) / 10^6.
* Python floats are modelled by exact rationals; round(x, n) is modelled by
  pyRound (round half to even, as Python's round).
* datetime.fromisoformat is a library call; fromisoformat below models its
  behaviour on the string shapes this system produces and tests
  (YYYY-MM-DD, optionally followed by a single separator character and
  HH:MM:SS with an optional fractional-second part of 1 to 6 digits), with
  full calendar validation.  Inputs outside this shape are rejected, as the
  strict parser rejects them.
* list.sort(key=...) in Python is a stable sort by key; List.insertionSort
  with the reflexive key order is the same (unique) stable sort.
-/

/-- A parsed timestamp: the fields of a Python naive datetime. -/
structure PyDateTime where
  year : ℕ
  month : ℕ
  day : ℕ
  hour : ℕ
  minute : ℕ
  second : ℕ
  microsecond : ℕ
deriving DecidableEq

/-- Gregorian leap-year test, as datetime uses. -/
def isLeapYear (y : ℕ) : Bool :=
  y % 4 = 0 && (y % 100 ≠ 0 || y % 400 = 0)

/-- Number of days in a month of a given year. -/
def daysInMonth (y m : ℕ) : ℕ :=
  if m = 2 then (if isLeapYear y then 29 else 28)
  else if m = 4 ∨ m = 6 ∨ m = 9 ∨ m = 11 then 30
  else 31

/-- Day count of a civil date from the era base 0000-03-01
(Hinnant's civil-from-days algorithm, restricted to year ≥ 1 so that all
quantities stay in ℕ).  Only differences and order of these counts are used,
so the choice of base is immaterial. -/
def daysSinceEra (y m d : ℕ) : ℕ :=
  let yAdj := if m ≤ 2 then y - 1 else y
  let era := yAdj / 400
  let yoe := yAdj % 400
  let mp := if 2 < m then m - 3 else m + 9
  let doy := (153 * mp + 2) / 5 + (d - 1)
  let doe := yoe * 365 + yoe / 4 - yoe / 100 + doy
  era * 146097 + doe

/-- Microseconds elapsed from the era base to a datetime. -/
def toMicro (t : PyDateTime) : ℕ :=
  (daysSinceEra t.year t.month t.day * 86400
    + t.hour * 3600 + t.minute * 60 + t.second) * 1000000 + t.microsecond

/-- The calendar-date component of a datetime, encoded as y*10000 + m*100 + d.
This models the strftime "%Y-%m-%d" key: for valid dates (m ≤ 12, d ≤ 31) the
encoding is injective and its numeric order is the lexicographic order of the
zero-padded date string. -/
def dateKey (t : PyDateTime) : ℕ :=
  t.year * 10000 + t.month * 100 + t.day

/-- Read exactly two decimal digits. -/
def read2 : List Char → Option (ℕ × List Char)
  | c1 :: c2 :: rest =>
    if c1.isDigit ∧ c2.isDigit then
      some ((c1.toNat - 48) * 10 + (c2.toNat - 48), rest)
    else none
  | _ => none

/-- Read exactly four decimal digits. -/
def read4 : List Char → Option (ℕ × List Char)
  | c1 :: c2 :: c3 :: c4 :: rest =>
    if c1.isDigit ∧ c2.isDigit ∧ c3.isDigit ∧ c4.isDigit then
      some (((c1.toNat - 48) * 1000 + (c2.toNat - 48) * 100
        + (c3.toNat - 48) * 10 + (c4.toNat - 48)), rest)
    else none
  | _ => none

/-- Consume one expected character. -/
def expectChar (c : Char) : List Char → Option (List Char)
  | x :: rest => if x = c then some rest else none
  | _ => none

/-- Value of a string of decimal digits. -/
def digitsVal : List Char → ℕ → ℕ
  | [], acc => acc
  | c :: rest, acc => digitsVal rest (acc * 10 + (c.toNat - 48))

/-- A fractional-second suffix: 1 to 6 digits, scaled to microseconds. -/
def readFrac (cs : List Char) : Option ℕ :=
  if cs ≠ [] ∧ cs.length ≤ 6 ∧ cs.all Char.isDigit then
    some (digitsVal cs 0 * 10 ^ (6 - cs.length))
  else none

/-- The time-of-day part HH:MM:SS with optional fractional seconds. -/
def readTime (cs : List Char) : Option (ℕ × ℕ × ℕ × ℕ) :=
  match read2 cs with
  | none => none
  | some (h, r1) =>
    match expectChar ':' r1 with
    | none => none
    | some r2 =>
      match read2 r2 with
      | none => none
      | some (mi, r3) =>
        match expectChar ':' r3 with
        | none => none
        | some r4 =>
          match read2 r4 with
          | none => none
          | some (s, r5) =>
            if h ≤ 23 ∧ mi ≤ 59 ∧ s ≤ 59 then
              match r5 with
              | [] => some (h, mi, s, 0)
              | dot :: frac =>
                if dot = '.' then
                  match readFrac frac with
                  | some us => some (h, mi, s, us)
                  | none => none
                else none
            else none

/-- Model of datetime.fromisoformat on this system's timestamp shapes:
the date YYYY-MM-DD, optionally followed by one separator character (any
character, as fromisoformat accepts) and a HH:MM:SS time with an optional
fractional-second part, with calendar validation. -/
def fromisoformatChars (cs : List Char) : Option PyDateTime :=
  match read4 cs with
  | none => none
  | some (y, r1) =>
    match expectChar '-' r1 with
    | none => none
    | some r2 =>
      match read2 r2 with
      | none => none
      | some (mo, r3) =>
        match expectChar '-' r3 with
        | none => none
        | some r4 =>
          match read2 r4 with
          | none => none
          | some (d, r5) =>
            if 1 ≤ y ∧ 1 ≤ mo ∧ mo ≤ 12 ∧ 1 ≤ d ∧ d ≤ daysInMonth y mo then
              match r5 with
              | [] => some ⟨y, mo, d, 0, 0, 0, 0⟩
              | _sep :: r6 =>
                match readTime r6 with
                | some (h, mi, s, us) => some ⟨y, mo, d, h, mi, s, us⟩
                | none => none
            else none

/-- String-level wrapper of the fromisoformat model. -/
def fromisoformat (s : String) : Option PyDateTime :=
  fromisoformatChars s.toList

/-- Embedding of parse_time (src/app.py lines 137-147): try fromisoformat on
the raw string, then with spaces replaced by the T separator, then truncated
at the first dot.  A result of none models the ValueError escaping all three
tiers (the MalformedTimestamp failure). -/
def parse_time (ts : String) : Option PyDateTime :=
  match fromisoformat ts with
  | some t => some t
  | none =>
    let ts2 := String.mk (ts.toList.map fun c => if c = ' ' then 'T' else c)
    match fromisoformat ts2 with
    | some t => some t
    | none => fromisoformat (String.mk (ts2.toList.takeWhile fun c => c ≠ '.'))

/-- Model of Python round(x, prec): round half to even at prec decimal
places, on exact rationals. -/
def pyRound (prec : ℕ) (x : ℚ) : ℚ :=
  let m : ℚ := 10 ^ prec
  let y := x * m
  let f : ℤ := ⌊y⌋
  let r : ℚ := y - f
  let n : ℤ := if r < 1 / 2 then f else if 1 / 2 < r then f + 1
    else if f % 2 = 0 then f else f + 1
  (n : ℚ) / m

/-- One integration sample as passed to compute_kwh_from_sorted_samples:
a timestamp string and a power in watts. -/
structure PySample where
  timestamp : String
  power_w : ℚ
deriving DecidableEq

/-- Conversion of a parsed sample to a (time in µs, power) point. -/
def parsePoint (s : PySample) : Option (ℕ × ℚ) :=
  (parse_time s.timestamp).map fun t => (toMicro t, s.power_w)

/-- Order on points by time, the sort key used at src/app.py line 173. -/
def byTime (a b : ℕ × ℚ) : Prop := a.1 ≤ b.1

instance : DecidableRel byTime := fun a b => inferInstanceAs (Decidable (a.1 ≤ b.1))

instance : IsTotal (ℕ × ℚ) byTime := ⟨fun a b => Nat.le_total a.1 b.1⟩

instance : IsTrans (ℕ × ℚ) byTime := ⟨fun _ _ _ h1 h2 => Nat.le_trans h1 h2⟩

/-- The parse-then-sort pipeline of compute_kwh_from_sorted_samples:
the time-sorted list of parseable points. -/
def sortedPoints (samples : List PySample) : List (ℕ × ℚ) :=
  (samples.filterMap parsePoint).insertionSort byTime

/-- Exact seconds denoted by a signed microsecond count
(timedelta.total_seconds()). -/
def secondsOfMicro (d : ℤ) : ℚ := (d : ℚ) / 1000000

/-- The trapezoid loop of src/app.py lines 183-190: for each consecutive
pair, skip a negative time delta, otherwise add (p0+p1)/2 * delta
watt-seconds. -/
def trapSum : List (ℕ × ℚ) → ℚ
  | (t0, p0) :: (t1, p1) :: rest =>
    (if (t1 : ℤ) - (t0 : ℤ) < 0 then 0
      else (p0 + p1) / 2 * secondsOfMicro ((t1 : ℤ) - (t0 : ℤ)))
      + trapSum ((t1, p1) :: rest)
  | _ => 0

/-- The delta-collection loop of src/app.py lines 193-197: the strictly
positive consecutive time deltas, in microseconds. -/
def posDeltas : List (ℕ × ℚ) → List ℤ
  | (t0, _) :: (t1, p1) :: rest =>
    (if 0 < (t1 : ℤ) - (t0 : ℤ) then [(t1 : ℤ) - (t0 : ℤ)] else [])
      ++ posDeltas ((t1, p1) :: rest)
  | _ => []

/-- sorted(l)[len(l) // 2]: the upper median element of a list. -/
def upperMedian (l : List ℤ) : ℤ :=
  (l.insertionSort (· ≤ ·)).getD (l.length / 2) 0

/-- src/app.py line 198: the median positive delta in seconds, defaulting to
60 seconds when no positive delta exists.  The median is selected on the
microsecond values; division by 10^6 is order-preserving, so this is the
element the source selects from the sorted list of second values. -/
def medianDelta (pts : List (ℕ × ℚ)) : ℚ :=
  let ds := posDeltas pts
  if ds.isEmpty then 60 else secondsOfMicro (upperMedian ds)

/-- Embedding of compute_kwh_from_sorted_samples (src/app.py lines 152-204). -/
def compute_kwh_from_sorted_samples (samples : List PySample) : ℚ :=
  if samples.isEmpty then 0
  else
    let pts0 := samples.filterMap parsePoint
    if pts0.isEmpty then 0
    else
      let pts := pts0.insertionSort byTime
      if pts.length = 1 then pyRound 6 ((pts.headD (0, 0)).2 * 60 / 3600 / 1000)
      else pyRound 6 ((trapSum pts
        + (pts.getLastD (0, 0)).2 * medianDelta pts) / 3600 / 1000)

/-- The telemetry payload of one stored sample (src/app.py lines 88-97). -/
structure EntryData where
  current_ma : ℚ
  power_w : ℚ
  voltage_v : ℚ
  total_kwh : ℚ
  is_on : Bool
deriving DecidableEq

/-- One record of the persisted sample log. -/
structure Entry where
  timestamp : String
  data : EntryData
deriving DecidableEq

/-- Parse the timestamp of every entry in order, pairing each entry with its
parsed datetime; none models the first ValueError aborting the surrounding
list comprehension. -/
def parseAll : List Entry → Option (List (Entry × PyDateTime))
  | [] => some []
  | e :: rest =>
    match parse_time e.timestamp with
    | none => none
    | some t => (parseAll rest).map fun l => (e, t) :: l

/-- Microseconds in the 30-day retention window. -/
def retentionMicro : ℤ := 30 * 86400 * 1000000

/-- Embedding of the store mutation of save_energy_data (src/app.py lines
99-115): append the new entry, keep only entries parsed strictly newer than
now - 30 days, and write back; any parse failure is caught by the enclosing
try/except, so the persisted list is left unchanged.  nowMicro is the
toMicro image of datetime.now(); the appended entry is a parameter (the
caller stamps it, line 89). -/
def save_energy_data (nowMicro : ℕ) (entry : Entry) (stored : List Entry) :
    List Entry :=
  match parseAll (stored ++ [entry]) with
  | none => stored
  | some l =>
    (l.filter fun p =>
      decide ((nowMicro : ℤ) - retentionMicro < (toMicro p.2 : ℤ))).map Prod.fst

/-- The persisted settings record (settings.json). -/
structure Settings where
  cost_per_kwh : ℚ
deriving DecidableEq

/-- The rate a reader obtains from the persisted settings. -/
def get_rate (s : Settings) : ℚ := s.cost_per_kwh

/-- Embedding of the set_rate route (src/app.py lines 464-477): a negative
rate is rejected with an error before any read or write of the settings;
otherwise the persisted rate is overwritten.  The first component is the
persisted settings after the request, the second the response. -/
def set_rate (rate : ℚ) (s : Settings) : Settings × Except String ℚ :=
  if rate < 0 then (s, Except.error "Rate must be non-negative")
  else (⟨rate⟩, Except.ok rate)

/-- Reduction of a stored entry to the dict passed to the integrator
(src/app.py lines 279 and 433). -/
def toPySample (e : Entry) : PySample :=
  ⟨e.timestamp, e.data.power_w⟩

/-- One element of the /daily_summary response. -/
structure DailySummaryItem where
  date : ℕ
  total_kwh : ℚ
  cost : ℚ
  avg_w : ℚ
  max_w : ℚ
  min_w : ℚ
deriving DecidableEq

/-- The per-date summary record built in the loop at src/app.py lines
288-303. -/
def mkDailySummaryItem (rate : ℚ) (d : ℕ) (samples : List PySample) :
    DailySummaryItem :=
  let kwh := compute_kwh_from_sorted_samples samples
  let powers := samples.map PySample.power_w
  { date := d
    total_kwh := kwh
    cost := pyRound 4 (kwh * rate)
    avg_w := if powers.isEmpty then 0 else pyRound 2 (powers.sum / powers.length)
    max_w := match powers with
      | [] => 0
      | p :: rest => pyRound 2 (rest.foldl max p)
    min_w := match powers with
      | [] => 0
      | p :: rest => pyRound 2 (rest.foldl min p) }

/-- Descending order on date keys (sorted(..., reverse=True)). -/
def descNat (a b : ℕ) : Prop := b ≤ a

instance : DecidableRel descNat := fun a b => inferInstanceAs (Decidable (b ≤ a))

instance : IsTotal ℕ descNat := ⟨fun a b => (Nat.le_total b a).imp id id⟩

instance : IsTrans ℕ descNat := ⟨fun _ _ _ h1 h2 => Nat.le_trans h2 h1⟩

/-- Ascending order on summary items by date (the final sort at src/app.py
line 306). -/
def byDate (a b : DailySummaryItem) : Prop := a.date ≤ b.date

instance : DecidableRel byDate := fun a b => inferInstanceAs (Decidable (a.date ≤ b.date))

instance : IsTotal DailySummaryItem byDate := ⟨fun a b => Nat.le_total a.date b.date⟩

instance : IsTrans DailySummaryItem byDate := ⟨fun _ _ _ h1 h2 => Nat.le_trans h1 h2⟩

/-- Embedding of build_daily_summary (src/app.py lines 261-306): group the
parseable entries by calendar date, pick the days_back most recent distinct
dates, build each day's summary in ascending date order, and sort the result
by date.  rate is the value read_settings supplies; defaultdict bucket d
holds, in log order, exactly the parseable entries whose date is d. -/
def build_daily_summary (rate : ℚ) (days_back : ℕ) (all_data : List Entry) :
    List DailySummaryItem :=
  let dated := all_data.filterMap fun e =>
    (parse_time e.timestamp).map fun t => (dateKey t, toPySample e)
  let dates := ((dated.map Prod.fst).dedup.insertionSort descNat).take days_back
  let summary := (dates.insertionSort (· ≤ ·)).map fun d =>
    mkDailySummaryItem rate d ((dated.filter fun p => decide (p.1 = d)).map Prod.snd)
  summary.insertionSort byDate

/-- The /historical_data JSON payload for one date. -/
structure HistResult where
  timestamps : List String
  power : List ℚ
  voltage : List ℚ
  current : List ℚ
  total_kwh : ℚ
  cost : ℚ
deriving DecidableEq

/-- Embedding of the historical_data route (src/app.py lines 410-452) for a
given date key.  The date filter at line 424 calls parse_time on every stored
entry with no per-entry guard, so one unparseable timestamp aborts the whole
request (modelled by the first error); an empty filtered set yields the
not-found error; otherwise the raw series and the integrated energy and cost
are returned. -/
def historical_data (rate : ℚ) (d : ℕ) (all_data : List Entry) :
    Except String HistResult :=
  match parseAll all_data with
  | none => Except.error "MalformedTimestamp"
  | some l =>
    let filtered := (l.filter fun p => decide (dateKey p.2 = d)).map Prod.fst
    if filtered.isEmpty then Except.error "No data for this date"
    else
      let total := compute_kwh_from_sorted_samples (filtered.map toPySample)
      Except.ok
        { timestamps := filtered.map Entry.timestamp
          power := filtered.map fun e => e.data.power_w
          voltage := filtered.map fun e => e.data.voltage_v
          current := filtered.map fun e => pyRound 3 (e.data.current_ma / 1000)
          total_kwh := total
          cost := pyRound 4 (total * rate) }

/-- The date keys of the parseable entries of the log, in log order
(with multiplicity): the dates present in the store. -/
def presentDates (all_data : List Entry) : List ℕ :=
  all_data.filterMap fun e => (parse_time e.timestamp).map dateKey

/-- Claim-side form of the trapezoid accumulation: the per-pair contribution
of a consecutive pair of points, (p0+p1)/2 times the time delta in seconds
when the delta is nonnegative, and zero otherwise. -/
def pairArea (q : (ℕ × ℚ) × (ℕ × ℚ)) : ℚ :=
  if (q.2.1 : ℤ) - (q.1.1 : ℤ) < 0 then 0
  else (q.1.2 + q.2.2) / 2 * secondsOfMicro ((q.2.1 : ℤ) - (q.1.1 : ℤ))

/-- Claim-side form of the inter-sample gaps: the time delta in microseconds
of every consecutive pair of points. -/
def pairGaps (pts : List (ℕ × ℚ)) : List ℤ :=
  (pts.zip pts.tail).map fun q => (q.2.1 : ℤ) - (q.1.1 : ℤ)

/-- The integrator's branch structure as a function of the already
parsed-and-sorted point list: zero on no points, the 60-second
approximation on one point, the trapezoid sum plus median-gap tail
otherwise. -/
def computeAux (pts : List (ℕ × ℚ)) : ℚ :=
  if pts.isEmpty then 0
  else if pts.length = 1 then pyRound 6 ((pts.headD (0, 0)).2 * 60 / 3600 / 1000)
  else pyRound 6 ((trapSum pts + (pts.getLastD (0, 0)).2 * medianDelta pts) / 3600 / 1000)

theorem sortedPoints_perm (samples : List PySample) :
    (sortedPoints samples).Perm (samples.filterMap parsePoint) :=
  List.perm_insertionSort byTime _

theorem compute_eq_computeAux (samples : List PySample) :
    compute_kwh_from_sorted_samples samples = computeAux (sortedPoints samples) := by
  by_cases hs : samples.isEmpty
  · have h : samples = [] := List.isEmpty_iff.mp hs
    subst h
    simp [compute_kwh_from_sorted_samples, computeAux, sortedPoints, List.insertionSort]
  · by_cases h0 : (samples.filterMap parsePoint).isEmpty
    · have h : samples.filterMap parsePoint = [] := List.isEmpty_iff.mp h0
      simp [compute_kwh_from_sorted_samples, computeAux, sortedPoints, hs, h,
        List.insertionSort]
    · have hlen : (sortedPoints samples).length = (samples.filterMap parsePoint).length :=
        (sortedPoints_perm samples).length_eq
      have hne : ¬ (sortedPoints samples).isEmpty := by
        intro hcon
        apply h0
        have : (sortedPoints samples).length = 0 := by
          simp [List.isEmpty_iff.mp hcon]
        rw [hlen] at this
        exact List.isEmpty_iff.mpr (List.length_eq_zero.mp this)
      simp only [compute_kwh_from_sorted_samples, computeAux, sortedPoints] at *
      simp [hs, h0, hne]

theorem trapSum_eq_pairAreas (pts : List (ℕ × ℚ)) :
    trapSum pts = ((pts.zip pts.tail).map pairArea).sum := by
  induction pts with
  | nil => simp [trapSum]
  | cons a tl ih =>
    cases tl with
    | nil => simp [trapSum]
    | cons b rest =>
      obtain ⟨t0, p0⟩ := a
      obtain ⟨t1, p1⟩ := b
      simp only [trapSum, List.tail_cons, List.zip_cons_cons, List.map_cons, List.sum_cons]
      rw [ih]
      simp [pairArea]

theorem posDeltas_eq_filter_pairGaps (pts : List (ℕ × ℚ)) :
    posDeltas pts = (pairGaps pts).filter fun d => decide (0 < d) := by
  induction pts with
  | nil => simp [posDeltas, pairGaps]
  | cons a tl ih =>
    cases tl with
    | nil => simp [posDeltas, pairGaps]
    | cons b rest =>
      obtain ⟨t0, p0⟩ := a
      obtain ⟨t1, p1⟩ := b
      simp only [posDeltas, pairGaps, List.tail_cons, List.zip_cons_cons, List.map_cons,
        List.filter_cons]
      rw [show posDeltas ((t1, p1) :: rest)
          = (pairGaps ((t1, p1) :: rest)).filter (fun d => decide (0 < d)) from ih]
      by_cases hpos : (0 : ℤ) < (t1 : ℤ) - (t0 : ℤ)
      · simp [pairGaps, hpos]
      · simp [pairGaps, hpos]

theorem pyRound_intCast (p : ℕ) (n : ℤ) : pyRound p (n : ℚ) = (n : ℚ) := by
  have hm : ((10 : ℚ) ^ p) ≠ 0 := by positivity
  have hy : ((n : ℚ) * 10 ^ p) = ((n * 10 ^ p : ℤ) : ℚ) := by push_cast; ring
  have hfloor : ⌊(n : ℚ) * 10 ^ p⌋ = n * 10 ^ p := by
    rw [hy, Int.floor_intCast]
  simp only [pyRound]
  rw [hfloor]
  push_cast
  rw [sub_self]
  norm_num

theorem filterMap_filter_eq {α β : Type} (f : α → Option β) (p : α → Bool)
    (hp : ∀ x, (f x).isSome = p x) (l : List α) :
    (l.filter p).filterMap f = l.filterMap f := by
  induction l with
  | nil => rfl
  | cons a tl ih =>
    rw [List.filter_cons]
    by_cases hpa : p a
    · simp only [hpa, if_true, List.filterMap_cons, ih]
    · have : f a = none := by
        cases hfa : f a with
        | none => rfl
        | some b => rw [← hp a] at hpa; simp [hfa] at hpa
      simp [hpa, this, ih]

theorem parseAll_eq_none {L : List Entry} {e : Entry} (he : e ∈ L)
    (hn : parse_time e.timestamp = none) : parseAll L = none := by
  induction L with
  | nil => cases he
  | cons a tl ih =>
    rw [List.mem_cons] at he
    cases he with
    | inl h => subst h; simp [parseAll, hn]
    | inr h =>
      unfold parseAll
      cases hpa : parse_time a.timestamp with
      | none => rfl
      | some t => rw [ih h]; rfl

theorem parseAll_eq_some {L : List Entry}
    (h : ∀ e ∈ L, (parse_time e.timestamp).isSome) :
    ∃ l, parseAll L = some l ∧ l.map Prod.fst = L ∧
      ∀ p ∈ l, parse_time p.1.timestamp = some p.2 := by
  induction L with
  | nil => exact ⟨[], rfl, rfl, by intro p hp; cases hp⟩
  | cons a tl ih =>
    have ha := h a (List.mem_cons_self a tl)
    obtain ⟨t, ht⟩ := Option.isSome_iff_exists.mp ha
    obtain ⟨l, hl, hmap, hall⟩ := ih fun e he => h e (List.mem_cons_of_mem a he)
    refine ⟨(a, t) :: l, ?_, ?_, ?_⟩
    · unfold parseAll
      rw [ht, hl]
      rfl
    · simp [hmap]
    · intro p hp
      rw [List.mem_cons] at hp
      cases hp with
      | inl h2 => subst h2; exact ht
      | inr h2 => exact hall p h2

theorem sortedPoints_eq_of_perm {l1 l2 : List PySample}
    (hp : (l1.filterMap parsePoint).Perm (l2.filterMap parsePoint))
    (hnd : (l1.filterMap parsePoint).Pairwise fun a b => a.1 ≠ b.1) :
    sortedPoints l1 = sortedPoints l2 := by
  have hperm : (sortedPoints l1).Perm (sortedPoints l2) :=
    ((sortedPoints_perm l1).trans hp).trans (sortedPoints_perm l2).symm
  have hs1 : (sortedPoints l1).Sorted byTime := List.sorted_insertionSort byTime _
  have hs2 : (sortedPoints l2).Sorted byTime := List.sorted_insertionSort byTime _
  have hsym : ∀ {x y : ℕ × ℚ}, x.1 ≠ y.1 → y.1 ≠ x.1 := fun h => h.symm
  have hnd1 : (sortedPoints l1).Pairwise fun a b => a.1 ≠ b.1 :=
    ((sortedPoints_perm l1).pairwise_iff hsym).mpr hnd
  have hnd2 : (sortedPoints l2).Pairwise fun a b => a.1 ≠ b.1 :=
    (hperm.pairwise_iff hsym).mp hnd1
  have hstrict : ∀ {l : List (ℕ × ℚ)}, l.Sorted byTime →
      (l.Pairwise fun a b => a.1 ≠ b.1) → l.Sorted fun a b => a.1 < b.1 := by
    intro l hs hn
    exact (hs.and hn).imp fun h => lt_of_le_of_ne h.1 h.2
  haveI : IsAntisymm (ℕ × ℚ) fun a b => a.1 < b.1 :=
    ⟨fun a b h1 h2 => absurd (h1.trans h2) (lt_irrefl _)⟩
  exact List.eq_of_perm_of_sorted hperm (hstrict hs1 hnd1) (hstrict hs2 hnd2)

/-- Claim C3: Integrate on the empty list returns 0, and on a single-element
list whose timestamp parses returns p * 60 / 3600 / 1000 rounded to 6
decimal places (60-second observation window). -/
theorem integrate_empty_and_single :
    compute_kwh_from_sorted_samples [] = 0 ∧
    ∀ (s : PySample) (t : PyDateTime), parse_time s.timestamp = some t →
      compute_kwh_from_sorted_samples [s] = pyRound 6 (s.power_w * 60 / 3600 / 1000) := by
  constructor
  · rfl
  · intro s t ht
    simp [compute_kwh_from_sorted_samples, parsePoint, ht, List.insertionSort,
      List.orderedInsert]

/-- Witness for C3 at a concrete single sample. -/
theorem integrate_empty_and_single_witness :
    parse_time "2024-01-01T00:00:00" = some ⟨2024, 1, 1, 0, 0, 0, 0⟩ ∧
    compute_kwh_from_sorted_samples [⟨"2024-01-01T00:00:00", 5⟩]
      = pyRound 6 ((5 : ℚ) * 60 / 3600 / 1000) :=
  ⟨by decide, integrate_empty_and_single.2 ⟨"2024-01-01T00:00:00", 5⟩
    ⟨2024, 1, 1, 0, 0, 0, 0⟩ (by decide)⟩

/-- Claim C4: a consecutive pair with a negative time delta contributes
exactly zero watt-seconds to the trapezoid accumulation of
compute_kwh_from_sorted_samples (the sum over the list starting at that pair
equals the sum over the list starting at its second point), so such a pair
never decreases the energy.  After the internal sort such a pair cannot even
occur; this is the guard of src/app.py lines 187-188. -/
theorem trapSum_negative_delta_zero (t0 t1 : ℕ) (p0 p1 : ℚ) (rest : List (ℕ × ℚ))
    (h : (t1 : ℤ) - (t0 : ℤ) < 0) :
    trapSum ((t0, p0) :: (t1, p1) :: rest) = trapSum ((t1, p1) :: rest) := by
  simp [trapSum, h]

/-- Witness for C4 at a concrete out-of-order pair. -/
theorem trapSum_negative_delta_zero_witness :
    ((0 : ℕ) : ℤ) - ((100 : ℕ) : ℤ) < 0 ∧
      trapSum [(100, 1), (0, 2)] = trapSum [(0, 2)] :=
  ⟨by decide, trapSum_negative_delta_zero 100 0 1 2 [] (by decide)⟩

/-- Claim C8: parse_time accepts all three test strings, the first and third
parsing to instants equal at second resolution (same date, 10:00:00) and
differing only in the microsecond field, and rejects "not-a-date". -/
theorem parse_time_three_tiers :
    parse_time "2024-01-01T10:00:00.123456" = some ⟨2024, 1, 1, 10, 0, 0, 123456⟩ ∧
    parse_time "2024-01-01 10:00:00" = some ⟨2024, 1, 1, 10, 0, 0, 0⟩ ∧
    parse_time "2024-01-01 10:00:00.999" = some ⟨2024, 1, 1, 10, 0, 0, 999000⟩ ∧
    parse_time "not-a-date" = none :=
  ⟨by decide, by decide, by decide, by decide⟩

/-- Claim C9: set_rate rejects a negative rate with an error, leaving the
persisted settings unchanged (so get_rate still returns the prior value),
and overwrites the persisted rate wholesale for a nonnegative rate. -/
theorem set_rate_validation (r : ℚ) (s : Settings) :
    (r < 0 → set_rate r s = (s, Except.error "Rate must be non-negative") ∧
      get_rate (set_rate r s).1 = get_rate s) ∧
    (0 ≤ r → set_rate r s = (⟨r⟩, Except.ok r)) := by
  constructor
  · intro hr
    constructor
    · simp [set_rate, hr]
    · simp [set_rate, hr]
  · intro hr
    rw [set_rate, if_neg (not_lt.mpr hr)]

/-- Witness for C9 at rate -1 (rejected) and rate 2 (accepted). -/
theorem set_rate_validation_witness :
    ((-1 : ℚ) < 0 ∧ set_rate (-1) ⟨10⟩ = (⟨10⟩, Except.error "Rate must be non-negative") ∧
      get_rate (set_rate (-1) ⟨10⟩).1 = get_rate ⟨10⟩) ∧
    ((0 : ℚ) ≤ 2 ∧ set_rate 2 ⟨10⟩ = (⟨2⟩, Except.ok 2)) := by
  have h1 := (set_rate_validation (-1) ⟨10⟩).1 (by norm_num)
  have h2 := (set_rate_validation 2 ⟨10⟩).2 (by norm_num)
  exact ⟨⟨by norm_num, h1.1, h1.2⟩, by norm_num, h2⟩

/-- Claim C10: if any stored sample's timestamp fails to parse, every append
aborts as a whole: the persisted collection is returned unchanged, the new
sample is discarded, and no pruning occurs. -/
theorem save_blocked_by_bad_timestamp (nowMicro : ℕ) (entry : Entry)
    (stored : List Entry) (h : ∃ e ∈ stored, parse_time e.timestamp = none) :
    save_energy_data nowMicro entry stored = stored := by
  obtain ⟨e, he, hn⟩ := h
  unfold save_energy_data
  rw [parseAll_eq_none (List.mem_append_left _ he) hn]

/-- Witness for C10: one stored entry with an unparseable timestamp blocks an
append of a fresh, parseable sample. -/
theorem save_blocked_by_bad_timestamp_witness :
    (∃ e ∈ [(⟨"not-a-date", ⟨0, 0, 0, 0, false⟩⟩ : Entry)],
      parse_time e.timestamp = none) ∧
    save_energy_data 0 ⟨"2024-01-01T00:00:00", ⟨0, 0, 0, 0, false⟩⟩
        [⟨"not-a-date", ⟨0, 0, 0, 0, false⟩⟩]
      = [⟨"not-a-date", ⟨0, 0, 0, 0, false⟩⟩] := by
  have hex : ∃ e ∈ [(⟨"not-a-date", ⟨0, 0, 0, 0, false⟩⟩ : Entry)],
      parse_time e.timestamp = none :=
    ⟨⟨"not-a-date", ⟨0, 0, 0, 0, false⟩⟩, List.mem_singleton_self _, by decide⟩
  exact ⟨hex, save_blocked_by_bad_timestamp 0 _ _ hex⟩

/-- Claim C1: with at least two parseable samples (and at least one strictly
positive inter-sample gap, so that the median of the positive gaps exists),
the integrator returns round(T / 3600 / 1000, 6) watt-seconds-to-kWh, where
T is the sum over consecutive pairs of the time-sorted parseable points of
the trapezoid area (p0+p1)/2 * dt for dt ≥ 0 (negative dt skipped, not
subtracted), plus last_power times the median of all strictly positive
gaps (the upper median, sorted(gaps)[len//2], as the source selects). -/
theorem integrate_multi_sample_formula (samples : List PySample)
    (h2 : 2 ≤ (sortedPoints samples).length)
    (hpos : (pairGaps (sortedPoints samples)).filter (fun d => decide (0 < d)) ≠ []) :
    compute_kwh_from_sorted_samples samples =
      pyRound 6 (((((sortedPoints samples).zip (sortedPoints samples).tail).map pairArea).sum
        + ((sortedPoints samples).getLastD (0, 0)).2
          * secondsOfMicro (upperMedian
            ((pairGaps (sortedPoints samples)).filter fun d => decide (0 < d))))
        / 3600 / 1000) := by
  rw [compute_eq_computeAux]
  have hne : (sortedPoints samples).isEmpty = false := by
    cases hp : sortedPoints samples with
    | nil => rw [hp] at h2; simp at h2
    | cons a tl => rfl
  have hlen : ¬ (sortedPoints samples).length = 1 := by omega
  simp only [computeAux, hne, Bool.false_eq_true, if_false, hlen]
  rw [trapSum_eq_pairAreas]
  simp only [medianDelta, posDeltas_eq_filter_pairGaps]
  rw [if_neg fun hcon => hpos (List.isEmpty_iff.mp hcon)]

/-- Witness for C1 at two concrete samples one hour apart. -/
theorem integrate_multi_sample_formula_witness :
    2 ≤ (sortedPoints [⟨"2024-01-01T00:00:00", 100⟩,
        ⟨"2024-01-01T01:00:00", 200⟩]).length ∧
    (pairGaps (sortedPoints [⟨"2024-01-01T00:00:00", 100⟩,
        ⟨"2024-01-01T01:00:00", 200⟩])).filter (fun d => decide (0 < d)) ≠ [] ∧
    compute_kwh_from_sorted_samples [⟨"2024-01-01T00:00:00", 100⟩,
        ⟨"2024-01-01T01:00:00", 200⟩] =
      pyRound 6 (((((sortedPoints [⟨"2024-01-01T00:00:00", 100⟩,
            ⟨"2024-01-01T01:00:00", 200⟩]).zip
          (sortedPoints [⟨"2024-01-01T00:00:00", 100⟩,
            ⟨"2024-01-01T01:00:00", 200⟩]).tail).map pairArea).sum
        + ((sortedPoints [⟨"2024-01-01T00:00:00", 100⟩,
            ⟨"2024-01-01T01:00:00", 200⟩]).getLastD (0, 0)).2
          * secondsOfMicro (upperMedian
            ((pairGaps (sortedPoints [⟨"2024-01-01T00:00:00", 100⟩,
              ⟨"2024-01-01T01:00:00", 200⟩])).filter fun d => decide (0 < d))))
        / 3600 / 1000) :=
  ⟨by decide, by decide,
    integrate_multi_sample_formula _ (by decide) (by decide)⟩

/-- Claim C2, counterexample: two permutations of the same parseable sample
list on which Integrate disagrees.  Two samples share the latest timestamp
with different powers; the stable sort preserves their input order, so the
tail extension last_power * median applies to a different power. -/
theorem integrate_perm_invariance_cex :
    List.Perm [(⟨"2024-01-01T00:00:00", 0⟩ : PySample), ⟨"2024-01-01T00:01:00", 0⟩,
        ⟨"2024-01-01T00:01:00", 7200000⟩]
      [⟨"2024-01-01T00:00:00", 0⟩, ⟨"2024-01-01T00:01:00", 7200000⟩,
        ⟨"2024-01-01T00:01:00", 0⟩] ∧
    (∀ s ∈ [(⟨"2024-01-01T00:00:00", 0⟩ : PySample), ⟨"2024-01-01T00:01:00", 0⟩,
        ⟨"2024-01-01T00:01:00", 7200000⟩], (parse_time s.timestamp).isSome = true) ∧
    compute_kwh_from_sorted_samples [(⟨"2024-01-01T00:00:00", 0⟩ : PySample),
        ⟨"2024-01-01T00:01:00", 0⟩, ⟨"2024-01-01T00:01:00", 7200000⟩]
      ≠ compute_kwh_from_sorted_samples [⟨"2024-01-01T00:00:00", 0⟩,
        ⟨"2024-01-01T00:01:00", 7200000⟩, ⟨"2024-01-01T00:01:00", 0⟩] := by
  refine ⟨by decide, by decide, ?_⟩
  have e1 : sortedPoints [(⟨"2024-01-01T00:00:00", 0⟩ : PySample),
      ⟨"2024-01-01T00:01:00", 0⟩, ⟨"2024-01-01T00:01:00", 7200000⟩]
      = [(63866102400000000, 0), (63866102460000000, 0),
        (63866102460000000, 7200000)] := by decide
  have e2 : sortedPoints [(⟨"2024-01-01T00:00:00", 0⟩ : PySample),
      ⟨"2024-01-01T00:01:00", 7200000⟩, ⟨"2024-01-01T00:01:00", 0⟩]
      = [(63866102400000000, 0), (63866102460000000, 7200000),
        (63866102460000000, 0)] := by decide
  have h1 : computeAux [(63866102400000000, 0), (63866102460000000, 0),
      (63866102460000000, 7200000)] = pyRound 6 120 := by
    norm_num [computeAux, trapSum, medianDelta, posDeltas, upperMedian, secondsOfMicro,
      List.insertionSort, List.orderedInsert, List.getLastD, List.getD]
  have h2 : computeAux [(63866102400000000, 0), (63866102460000000, 7200000),
      (63866102460000000, 0)] = pyRound 6 60 := by
    norm_num [computeAux, trapSum, medianDelta, posDeltas, upperMedian, secondsOfMicro,
      List.insertionSort, List.orderedInsert, List.getLastD, List.getD]
  rw [compute_eq_computeAux, compute_eq_computeAux, e1, e2, h1, h2]
  have r1 := pyRound_intCast 6 120
  have r2 := pyRound_intCast 6 60
  norm_num at r1 r2
  rw [r1, r2]
  norm_num

/-- Claim C2, amended: Integrate is invariant under permutation of its input
provided the parsed instants of the parseable samples are pairwise distinct
(when two samples share an instant, the stable sort makes the result depend
on the input order, as the counterexample shows). -/
theorem integrate_perm_invariant_of_distinct_times (l1 l2 : List PySample)
    (hperm : l1.Perm l2)
    (hparse : ∀ s ∈ l1, (parse_time s.timestamp).isSome = true)
    (hnd : (l1.filterMap parsePoint).Pairwise fun a b => a.1 ≠ b.1) :
    compute_kwh_from_sorted_samples l1 = compute_kwh_from_sorted_samples l2 := by
  rw [compute_eq_computeAux, compute_eq_computeAux,
    sortedPoints_eq_of_perm (hperm.filterMap parsePoint) hnd]

/-- Witness for amended C2 at a concrete two-sample swap. -/
theorem integrate_perm_invariant_of_distinct_times_witness :
    List.Perm [(⟨"2024-01-01T00:00:00", 1⟩ : PySample), ⟨"2024-01-01T00:01:00", 2⟩]
      [⟨"2024-01-01T00:01:00", 2⟩, ⟨"2024-01-01T00:00:00", 1⟩] ∧
    (∀ s ∈ [(⟨"2024-01-01T00:00:00", 1⟩ : PySample), ⟨"2024-01-01T00:01:00", 2⟩],
      (parse_time s.timestamp).isSome = true) ∧
    (([(⟨"2024-01-01T00:00:00", 1⟩ : PySample),
      ⟨"2024-01-01T00:01:00", 2⟩].filterMap parsePoint).Pairwise
        fun a b => a.1 ≠ b.1) ∧
    compute_kwh_from_sorted_samples [(⟨"2024-01-01T00:00:00", 1⟩ : PySample),
        ⟨"2024-01-01T00:01:00", 2⟩]
      = compute_kwh_from_sorted_samples [⟨"2024-01-01T00:01:00", 2⟩,
        ⟨"2024-01-01T00:00:00", 1⟩] :=
  ⟨by decide, by decide, by decide,
    integrate_perm_invariant_of_distinct_times _ _ (by decide) (by decide) (by decide)⟩

/-- Claim C5: after a successful append (every timestamp involved parses),
the stored collection contains the appended sample exactly when its parsed
timestamp lies strictly inside the 30-day window, every surviving sample is
strictly inside the window (so none is older than now - 30 days), and an
appended sample older than 30 days is excluded from the read-back. -/
theorem save_energy_data_retention (nowMicro : ℕ) (entry : Entry)
    (stored : List Entry) (te : PyDateTime)
    (hstored : ∀ e ∈ stored, (parse_time e.timestamp).isSome = true)
    (hentry : parse_time entry.timestamp = some te) :
    (((nowMicro : ℤ) - retentionMicro < (toMicro te : ℤ)) →
      entry ∈ save_energy_data nowMicro entry stored) ∧
    (∀ e ∈ save_energy_data nowMicro entry stored, ∀ t : PyDateTime,
      parse_time e.timestamp = some t →
        (nowMicro : ℤ) - retentionMicro < (toMicro t : ℤ)) ∧
    (¬ ((nowMicro : ℤ) - retentionMicro < (toMicro te : ℤ)) →
      entry ∉ save_energy_data nowMicro entry stored) := by
  have hall : ∀ e ∈ stored ++ [entry], (parse_time e.timestamp).isSome = true := by
    intro e he
    rcases List.mem_append.mp he with h | h
    · exact hstored e h
    · rw [List.mem_singleton.mp h, hentry]; rfl
  obtain ⟨l, hl, hmap, hparsed⟩ := parseAll_eq_some hall
  have hmem2 : ∀ e ∈ save_energy_data nowMicro entry stored, ∀ t : PyDateTime,
      parse_time e.timestamp = some t →
        (nowMicro : ℤ) - retentionMicro < (toMicro t : ℤ) := by
    intro e he t ht
    unfold save_energy_data at he
    rw [hl] at he
    obtain ⟨p, hp, hpe⟩ := List.mem_map.mp he
    obtain ⟨hpl, hcond⟩ := List.mem_filter.mp hp
    have hpt : parse_time p.1.timestamp = some p.2 := hparsed p hpl
    rw [hpe, ht] at hpt
    rw [Option.some.injEq] at hpt
    rw [hpt]
    exact of_decide_eq_true hcond
  refine ⟨?_, hmem2, ?_⟩
  · intro hwin
    unfold save_energy_data
    rw [hl]
    have hmem : entry ∈ l.map Prod.fst := by
      rw [hmap]
      exact List.mem_append_right _ (List.mem_singleton_self entry)
    obtain ⟨p, hpl, hpe⟩ := List.mem_map.mp hmem
    have hpt : parse_time p.1.timestamp = some p.2 := hparsed p hpl
    rw [hpe, hentry, Option.some.injEq] at hpt
    refine List.mem_map.mpr ⟨p, List.mem_filter.mpr ⟨hpl, ?_⟩, hpe⟩
    rw [← hpt]
    exact decide_eq_true hwin
  · intro hwin hmem
    exact hwin (hmem2 entry hmem te hentry)

/-- Witness for C5: appending a one-day-old sample to an empty store with
"now" at 2024-02-15 keeps the sample. -/
theorem save_energy_data_retention_witness :
    parse_time "2024-02-14T00:00:00" = some ⟨2024, 2, 14, 0, 0, 0, 0⟩ ∧
    (toMicro ⟨2024, 2, 15, 0, 0, 0, 0⟩ : ℤ) - retentionMicro
      < (toMicro ⟨2024, 2, 14, 0, 0, 0, 0⟩ : ℤ) ∧
    (⟨"2024-02-14T00:00:00", ⟨0, 0, 0, 0, false⟩⟩ : Entry) ∈
      save_energy_data (toMicro ⟨2024, 2, 15, 0, 0, 0, 0⟩)
        ⟨"2024-02-14T00:00:00", ⟨0, 0, 0, 0, false⟩⟩ [] :=
  ⟨by decide, by decide,
    (save_energy_data_retention (toMicro ⟨2024, 2, 15, 0, 0, 0, 0⟩)
      ⟨"2024-02-14T00:00:00", ⟨0, 0, 0, 0, false⟩⟩ [] ⟨2024, 2, 14, 0, 0, 0, 0⟩
      (by intro e he; cases he) (by decide)).1 (by decide)⟩

/-- Claim C7, counterexample: a store holding one parseable sample dated
2024-01-01 and one sample with an unparseable timestamp.  The day-detail
query for 2024-01-01 does not succeed over the remaining samples: the
unguarded parse in its date filter aborts the whole request. -/
theorem historical_data_unparseable_cex :
    parse_time "2024-01-01T10:00:00" = some ⟨2024, 1, 1, 10, 0, 0, 0⟩ ∧
    dateKey ⟨2024, 1, 1, 10, 0, 0, 0⟩ = 20240101 ∧
    parse_time "not-a-date" = none ∧
    historical_data 10 20240101
      [⟨"2024-01-01T10:00:00", ⟨0, 5, 0, 0, true⟩⟩,
        ⟨"not-a-date", ⟨0, 7, 0, 0, true⟩⟩]
      = Except.error "MalformedTimestamp" :=
  ⟨by decide, by decide, by decide, rfl⟩

/-- Claim C7, amended: a sample whose timestamp fails to parse is dropped
from integration and from the daily-summary grouping — Integrate and
DailySummaryRange over a list equal their values over its subsequence of
parseable entries (queries never mutate the store) — but DayDetail
(historical_data) does not tolerate such a sample: its date filter parses
every stored entry unguarded, so the request fails as a whole. -/
theorem unparseable_sample_dropped_amended :
    (∀ l : List PySample, compute_kwh_from_sorted_samples l
      = compute_kwh_from_sorted_samples
          (l.filter fun s => (parse_time s.timestamp).isSome)) ∧
    (∀ (rate : ℚ) (n : ℕ) (L : List Entry), build_daily_summary rate n L
      = build_daily_summary rate n
          (L.filter fun e => (parse_time e.timestamp).isSome)) := by
  constructor
  · intro l
    rw [compute_eq_computeAux, compute_eq_computeAux]
    have hs : sortedPoints (l.filter fun s => (parse_time s.timestamp).isSome)
        = sortedPoints l := by
      unfold sortedPoints
      rw [filterMap_filter_eq parsePoint _ ?_ l]
      intro s
      unfold parsePoint
      cases parse_time s.timestamp <;> rfl
    rw [hs]
  · intro rate n L
    unfold build_daily_summary
    rw [filterMap_filter_eq
      (fun e => (parse_time e.timestamp).map fun t => (dateKey t, toPySample e)) _ ?_ L]
    intro e
    cases hpe : parse_time e.timestamp <;> simp [hpe]

theorem selectedDates_shape (keys : List ℕ) (hnd : keys.Nodup) (n : ℕ) :
    (((keys.insertionSort descNat).take n).insertionSort (· ≤ ·)).length ≤ n ∧
    (((keys.insertionSort descNat).take n).insertionSort (· ≤ ·)).Pairwise (· < ·) ∧
    (∀ m ∈ ((keys.insertionSort descNat).take n).insertionSort (· ≤ ·), m ∈ keys) ∧
    (∀ k ∈ keys, k ∉ ((keys.insertionSort descNat).take n).insertionSort (· ≤ ·) →
      ∀ m ∈ ((keys.insertionSort descNat).take n).insertionSort (· ≤ ·), k ≤ m) := by
  have hpermasc : (((keys.insertionSort descNat).take n).insertionSort (· ≤ ·)).Perm
      ((keys.insertionSort descNat).take n) := List.perm_insertionSort _ _
  have hpermdesc : (keys.insertionSort descNat).Perm keys := List.perm_insertionSort _ _
  have hsortdesc : (keys.insertionSort descNat).Sorted descNat := List.sorted_insertionSort _ _
  have hlen : (((keys.insertionSort descNat).take n).insertionSort (· ≤ ·)).length ≤ n := by
    rw [hpermasc.length_eq, List.length_take]
    exact min_le_left _ _
  have hmemtake : ∀ m ∈ ((keys.insertionSort descNat).take n).insertionSort (· ≤ ·),
      m ∈ keys := fun m hm =>
    hpermdesc.mem_iff.mp (List.mem_of_mem_take (hpermasc.mem_iff.mp hm))
  have hnddesc : (keys.insertionSort descNat).Nodup := hpermdesc.nodup_iff.mpr hnd
  have hndtake : ((keys.insertionSort descNat).take n).Nodup :=
    List.Nodup.sublist (List.take_sublist n _) hnddesc
  have hndasc : (((keys.insertionSort descNat).take n).insertionSort (· ≤ ·)).Nodup :=
    hpermasc.nodup_iff.mpr hndtake
  have hsortasc : (((keys.insertionSort descNat).take n).insertionSort (· ≤ ·)).Sorted
      (· ≤ ·) := List.sorted_insertionSort _ _
  have hpw : (((keys.insertionSort descNat).take n).insertionSort (· ≤ ·)).Pairwise
      (· < ·) := (hsortasc.and hndasc).imp fun hab => lt_of_le_of_ne hab.1 hab.2
  refine ⟨hlen, hpw, hmemtake, ?_⟩
  intro k hk hkn m hm
  have hkdesc : k ∈ keys.insertionSort descNat := hpermdesc.mem_iff.mpr hk
  have hkdrop : k ∈ (keys.insertionSort descNat).drop n := by
    have hsplit : k ∈ (keys.insertionSort descNat).take n
        ++ (keys.insertionSort descNat).drop n := by
      rw [List.take_append_drop]
      exact hkdesc
    rcases List.mem_append.mp hsplit with h | h
    · exact absurd (hpermasc.mem_iff.mpr h) hkn
    · exact h
  exact hsortdesc.rel_of_mem_take_of_mem_drop (hpermasc.mem_iff.mp hm) hkdrop

theorem dated_map_fst (all_data : List Entry) :
    ((all_data.filterMap fun e =>
      (parse_time e.timestamp).map fun t => (dateKey t, toPySample e)).map Prod.fst)
      = presentDates all_data := by
  induction all_data with
  | nil => rfl
  | cons a tl ih =>
    simp only [presentDates, List.filterMap_cons] at ih ⊢
    cases hpa : parse_time a.timestamp with
    | none => simpa using ih
    | some t => simpa using ih

theorem summary_sort_collapse (rate : ℚ) (g : ℕ → List PySample) (asc : List ℕ)
    (hasc : asc.Sorted (· ≤ ·)) :
    List.insertionSort byDate (asc.map fun d => mkDailySummaryItem rate d (g d))
      = asc.map (fun d => mkDailySummaryItem rate d (g d)) ∧
    (asc.map fun d => mkDailySummaryItem rate d (g d)).map DailySummaryItem.date = asc := by
  have hsorted : (asc.map fun d => mkDailySummaryItem rate d (g d)).Sorted byDate :=
    List.pairwise_map.mpr (hasc.imp fun h => h)
  constructor
  · exact hsorted.insertionSort_eq
  · rw [List.map_map]
    have hfun : (DailySummaryItem.date ∘ fun d => mkDailySummaryItem rate d (g d))
        = fun d => d := rfl
    rw [hfun]
    exact List.map_id' asc

theorem build_map_date (rate : ℚ) (days_back : ℕ) (all_data : List Entry) :
    (build_daily_summary rate days_back all_data).map DailySummaryItem.date
      = ((((all_data.filterMap fun e => (parse_time e.timestamp).map
          fun t => (dateKey t, toPySample e)).map Prod.fst).dedup.insertionSort
            descNat).take days_back).insertionSort (· ≤ ·) := by
  simp only [build_daily_summary]
  rw [(summary_sort_collapse rate _ _ (List.sorted_insertionSort _ _)).1,
    (summary_sort_collapse rate _ _ (List.sorted_insertionSort _ _)).2]

/-- Claim C6: for every store and daysBack ≥ 1, the daily summary has at most
daysBack entries, its dates are strictly increasing (distinct and sorted
ascending), every returned date is present in the store, and any present
date left out is at most every returned date (the selected dates are the
most recent ones present). -/
theorem build_daily_summary_shape (rate : ℚ) (days_back : ℕ) (all_data : List Entry)
    (h : 1 ≤ days_back) :
    (build_daily_summary rate days_back all_data).length ≤ days_back ∧
    ((build_daily_summary rate days_back all_data).map DailySummaryItem.date).Pairwise
      (· < ·) ∧
    (∀ m ∈ (build_daily_summary rate days_back all_data).map DailySummaryItem.date,
      m ∈ presentDates all_data) ∧
    (∀ k ∈ presentDates all_data,
      k ∉ (build_daily_summary rate days_back all_data).map DailySummaryItem.date →
      ∀ m ∈ (build_daily_summary rate days_back all_data).map DailySummaryItem.date,
        k ≤ m) := by
  have hmd := build_map_date rate days_back all_data
  obtain ⟨hlen, hpw, hmem, hrec⟩ := selectedDates_shape
    ((all_data.filterMap fun e => (parse_time e.timestamp).map
      fun t => (dateKey t, toPySample e)).map Prod.fst).dedup
    (List.nodup_dedup _) days_back
  refine ⟨?_, ?_, ?_, ?_⟩
  · have hl := congrArg List.length hmd
    rw [List.length_map] at hl
    rw [hl]
    exact hlen
  · rw [hmd]
    exact hpw
  · intro m hm
    rw [hmd] at hm
    have h2 := hmem m hm
    rw [List.mem_dedup, dated_map_fst] at h2
    exact h2
  · intro k hk hkn m hm
    rw [hmd] at hkn hm
    refine hrec k ?_ hkn m hm
    rw [List.mem_dedup, dated_map_fst]
    exact hk

/-- Witness for C6: a two-entry store spanning two dates queried with
daysBack = 1. -/
theorem build_daily_summary_shape_witness :
    1 ≤ 1 ∧
    ((build_daily_summary 10 1 [⟨"2024-01-02T00:00:00", ⟨0, 5, 0, 0, true⟩⟩,
      ⟨"2024-01-01T00:00:00", ⟨0, 3, 0, 0, true⟩⟩]).length ≤ 1 ∧
    ((build_daily_summary 10 1 [⟨"2024-01-02T00:00:00", ⟨0, 5, 0, 0, true⟩⟩,
      ⟨"2024-01-01T00:00:00", ⟨0, 3, 0, 0, true⟩⟩]).map DailySummaryItem.date).Pairwise
      (· < ·) ∧
    (∀ m ∈ (build_daily_summary 10 1 [⟨"2024-01-02T00:00:00", ⟨0, 5, 0, 0, true⟩⟩,
      ⟨"2024-01-01T00:00:00", ⟨0, 3, 0, 0, true⟩⟩]).map DailySummaryItem.date,
      m ∈ presentDates [⟨"2024-01-02T00:00:00", ⟨0, 5, 0, 0, true⟩⟩,
        ⟨"2024-01-01T00:00:00", ⟨0, 3, 0, 0, true⟩⟩]) ∧
    (∀ k ∈ presentDates [⟨"2024-01-02T00:00:00", ⟨0, 5, 0, 0, true⟩⟩,
        ⟨"2024-01-01T00:00:00", ⟨0, 3, 0, 0, true⟩⟩],
      k ∉ (build_daily_summary 10 1 [⟨"2024-01-02T00:00:00", ⟨0, 5, 0, 0, true⟩⟩,
        ⟨"2024-01-01T00:00:00", ⟨0, 3, 0, 0, true⟩⟩]).map DailySummaryItem.date →
      ∀ m ∈ (build_daily_summary 10 1 [⟨"2024-01-02T00:00:00", ⟨0, 5, 0, 0, true⟩⟩,
        ⟨"2024-01-01T00:00:00", ⟨0, 3, 0, 0, true⟩⟩]).map DailySummaryItem.date,
        k ≤ m)) :=
  ⟨Nat.le_refl 1, build_daily_summary_shape 10 1
    [⟨"2024-01-02T00:00:00", ⟨0, 5, 0, 0, true⟩⟩,
      ⟨"2024-01-01T00:00:00", ⟨0, 3, 0, 0, true⟩⟩] (Nat.le_refl 1)⟩
